import Mathlib

/-!
Verification development for the query-guard subsystem of the `ai-search-2.0`
repository (`src/services/queryProtection.ts` and the guarded execution path
documented for `src/services/database.ts`).

The validator is embedded directly from the TypeScript source.  JavaScript
strings are modelled as Lean `String` / `List Char`; the repository only ever
feeds ASCII SQL text to the guard, for which `String.length` agrees with the
JavaScript `length` and the explicit `jsTrim` / `jsToLower` below agree with
`trim()` / `toLowerCase()` as used in the source.  The JavaScript regular
expressions used by the validator are embedded as explicit character
scanners whose semantics are justified construct by construct in the doc
comments below (`\b` is a word boundary over `[A-Za-z0-9_]`, `.` matches any
character except a line terminator, `g` yields non-overlapping left-to-right
matches).
-/

namespace QueryGuard

/-- JavaScript word character (`\w` = `[A-Za-z0-9_]`), used by the `\b`
word-boundary assertions in the validator's regular expressions. -/
def isWordChar (c : Char) : Bool :=
  c.isAlphanum || c == '_'

/-- JavaScript whitespace (`\s`) restricted to the ASCII range
(space, tab, line feed, carriage return, vertical tab, form feed). -/
def isJsWs (c : Char) : Bool :=
  c == ' ' || c == '\t' || c == '\n' || c == '\r' || c.toNat == 11 || c.toNat == 12

/-- JavaScript `trim()`: drop whitespace from both ends (the repository only
feeds ASCII statements to the guard, for which the ASCII whitespace set is
exhaustive). -/
def jsTrim (s : String) : String :=
  ⟨((s.data.dropWhile isJsWs).reverse.dropWhile isJsWs).reverse⟩

/-- JavaScript `toLowerCase()` on the ASCII range: map `A`-`Z` to `a`-`z`. -/
def lowerChar (c : Char) : Char :=
  if c.isUpper then Char.ofNat (c.toNat + 32) else c

/-- JavaScript `toLowerCase()` character by character. -/
def jsToLower (s : String) : String :=
  ⟨s.data.map lowerChar⟩

/-- The `\n`-separated lines of a text (JavaScript `split("\n")`), used to
model that `.` in a regular expression never matches a line terminator.
`acc` holds the reversed current line. -/
def splitLinesAux (acc : List Char) : List Char → List (List Char)
  | [] => [acc.reverse]
  | c :: rest =>
    if c = '\n' then acc.reverse :: splitLinesAux [] rest
    else splitLinesAux (c :: acc) rest

/-- Here `containsSub pat s` is JavaScript `s.includes(pat)`: `pat` occurs as a
contiguous substring of `s`. -/
def containsSub (pat : List Char) : List Char → Bool
  | [] => pat.isEmpty
  | c :: rest => pat.isPrefixOf (c :: rest) || containsSub pat rest

/-- Here `strContains s pat` is JavaScript `s.includes(pat)` on strings. -/
def strContains (s pat : String) : Bool :=
  containsSub pat.data s.data

/-- A `\b` word boundary holds before the current position when the previous
character (if any) is not a word character; at the start of the input it
holds because every scanned word starts with a word character. -/
def prevBoundary : Option Char → Bool
  | none => true
  | some p => !isWordChar p

/-- Whether the previous character exists and is a word character (the shape
of a `\b` assertion immediately before a non-word character such as `=`). -/
def prevIsWord : Option Char → Bool
  | none => false
  | some p => isWordChar p

/-- A `\b` word boundary holds after a word `w` at the current position when
the character following `w` (if any) is not a word character. -/
def afterBoundary (w s : List Char) : Bool :=
  match s.drop w.length with
  | [] => true
  | d :: _ => !isWordChar d

/-- Number of occurrences of `\b w \b` in the scanned text, carrying the
previous character for the leading boundary test.  All words scanned by the
validator consist solely of word characters, so distinct boundary-delimited
occurrences can never overlap and this position count equals the JavaScript
global (`g`) match count. -/
def countWordFrom (w : List Char) (prev : Option Char) : List Char → Nat
  | [] => 0
  | c :: rest =>
    (if prevBoundary prev && w.isPrefixOf (c :: rest) && afterBoundary w (c :: rest)
     then 1 else 0) + countWordFrom w (some c) rest

/-- Count `(s.match(/\bw\b/g) || []).length` for a word `w` of word characters. -/
def countWord (w : String) (s : String) : Nat :=
  countWordFrom w.data none s.data

/-- Whether `\b w \b` occurs in the scanned text (with previous-character
context for the leading boundary). -/
def hasWordFrom (w : List Char) (prev : Option Char) : List Char → Bool
  | [] => false
  | c :: rest =>
    (prevBoundary prev && w.isPrefixOf (c :: rest) && afterBoundary w (c :: rest))
      || hasWordFrom w (some c) rest

/-- Count `(s.match(/\bselect\b.*\bselect\b/gi) || []).length` on the lower-cased
statement.  Because `.` cannot match a line terminator, every match lies
within one `\n`-separated line; within a line the scan finds the leftmost
`\bselect\b`, the greedy `.*` runs to the end of the line and backtracks to
the last `\bselect\b`, consuming every `select` of the line in a single
match.  Hence the global match count is exactly the number of lines carrying
at least two word-bounded occurrences of `select`. -/
def countNestedSelect (s : String) : Nat :=
  ((splitLinesAux [] s.data).filter (fun l => 2 ≤ countWordFrom "select".data none l)).length

/-- Scanner for `/\bjoin\b.*\bon\b/`: find the leftmost `\bjoin\b` of a line
and look for a `\bon\b` anywhere after it.  If the leftmost `join` is not
followed by an `on`, no later `join` can be either, so stopping at the first
`join` is exact.  The previous character after consuming `join` is `'n'`. -/
def joinThenOn (prev : Option Char) : List Char → Bool
  | [] => false
  | c :: rest =>
    if prevBoundary prev && "join".data.isPrefixOf (c :: rest)
        && afterBoundary "join".data (c :: rest) then
      hasWordFrom "on".data (some 'n') ((c :: rest).drop "join".data.length)
    else
      joinThenOn (some c) rest

/-- Test of `sql.match(/\bjoin\b.*\bon\b/gi)`, tested for existence: since `.` never
matches a line terminator, a match must lie within a single line. -/
def regexJoinOn (s : String) : Bool :=
  (splitLinesAux [] s.data).any (fun l => joinThenOn none l)

/-- Scanner for the trailing `\b=` of `/\bwhere\b.*\b=\b.*\b=/`: an `=` whose
preceding character is a word character. -/
def scanHalfEq (prev : Option Char) : List Char → Bool
  | [] => false
  | c :: rest => (c == '=' && prevIsWord prev) || scanHalfEq (some c) rest

/-- Scanner for `\b=\b.*\b=` after the `where`: the first `=` must sit between
two word characters (both boundaries of `\b=\b`), the second needs only a word
character before it.  Taking the leftmost two-sided `=` is exact: any later
two-sided `=` is itself a valid one-sided `=` for the leftmost one. -/
def scanFullEq (prev : Option Char) : List Char → Bool
  | [] => false
  | c :: rest =>
    if c == '=' && prevIsWord prev
        && (match rest with | [] => false | d :: _ => isWordChar d) then
      scanHalfEq (some '=') rest
    else
      scanFullEq (some c) rest

/-- Find the leftmost `\bwhere\b` of a line and run `inner` on the remainder
(previous character `'e'`).  Exact for existence tests whose witness may start
anywhere after a `where`: a witness after a later `where` is also after the
first one. -/
def whereThen (inner : Option Char → List Char → Bool) (prev : Option Char) :
    List Char → Bool
  | [] => false
  | c :: rest =>
    if prevBoundary prev && "where".data.isPrefixOf (c :: rest)
        && afterBoundary "where".data (c :: rest) then
      inner (some 'e') ((c :: rest).drop "where".data.length)
    else
      whereThen inner (some c) rest

/-- Test of `sql.match(/\bwhere\b.*\b=\b.*\b=/gi)`, tested for existence (per line,
since `.` never crosses a line terminator). -/
def regexWhereEqEq (s : String) : Bool :=
  (splitLinesAux [] s.data).any (fun l => whereThen scanFullEq none l)

/-- The function names of the WHERE-column heuristic regex. -/
def funcNames : List (List Char) :=
  ["lower".data, "upper".data, "trim".data, "substring".data,
   "date_trunc".data, "extract".data]

/-- Pattern `\s*\(`: skip JavaScript whitespace, then require an opening parenthesis. -/
def parenAfterWs : List Char → Bool
  | [] => false
  | c :: rest => if c == '(' then true else if isJsWs c then parenAfterWs rest else false

/-- Scanner for `\b(lower|upper|trim|substring|date_trunc|extract)\s*\(` at
any position of the remainder of the line after a `where`. -/
def scanFuncCall (prev : Option Char) : List Char → Bool
  | [] => false
  | c :: rest =>
    (prevBoundary prev
        && funcNames.any (fun f =>
              f.isPrefixOf (c :: rest) && parenAfterWs ((c :: rest).drop f.length)))
      || scanFuncCall (some c) rest

/-- Test of
`sql.match(/\bwhere\b.*\b(lower|upper|trim|substring|date_trunc|extract)\s*\(/gi)`
tested for existence (per line). -/
def regexWhereFunc (s : String) : Bool :=
  (splitLinesAux [] s.data).any (fun l => whereThen scanFuncCall none l)

/-- Tail of `/like\s+['"]%[^%]/` after the literal `like`: one or more
whitespace characters, a quote, a percent sign, then any character other than
a percent sign.  `['"]` cannot be whitespace, so greedily consuming the
whitespace run is exact. -/
def likeTail : List Char → Bool
  | [] => false
  | c :: rest =>
    if isJsWs c then likeTail rest
    else
      (c == '\'' || c == '"')
        && (match rest with
            | p :: d :: _ => p == '%' && d != '%'
            | _ => false)

/-- Test of `sql.match(/like\s+['"]%[^%]/gi)`, tested for existence.  The pattern has
no word boundary on `like` and `\s`/`[^%]` may match a line terminator, so
the whole text is scanned position by position. -/
def regexLikeWildcard : List Char → Bool
  | [] => false
  | c :: rest =>
    ("like".data.isPrefixOf (c :: rest)
        && (match (c :: rest).drop "like".data.length with
            | [] => false
            | d :: tail => isJsWs d && likeTail tail))
      || regexLikeWildcard rest

/-- Pattern `like\s+...` requires at least one whitespace after `like`; the check on
the first dropped character enforces the `+`. -/
def strLikeWildcard (s : String) : Bool :=
  regexLikeWildcard s.data

/-- Structure `QueryProtectionConfig` from `queryProtection.ts` (lines 6-12). -/
structure QueryProtectionConfig where
  maxQueryTimeMs : Nat
  maxResultRows : Nat
  maxQueryLength : Nat
  enableComplexityCheck : Bool
  enableStatementTimeout : Bool
deriving DecidableEq, Repr

/-- The environment-default configuration built by the constructor
(`queryProtection.ts` lines 23-32) when no environment overrides are set:
30000 ms, 10000 rows, 50000 characters, both toggles on. -/
def defaultConfig : QueryProtectionConfig :=
  { maxQueryTimeMs := 30000
    maxResultRows := 10000
    maxQueryLength := 50000
    enableComplexityCheck := true
    enableStatementTimeout := true }

/-- Structure `QueryProtectionResult` from `queryProtection.ts` (lines 14-18); the
optional fields model the absence of `reason` / `warnings` on the returned
object. -/
structure QueryProtectionResult where
  allowed : Bool
  reason : Option String
  warnings : Option (List String)
deriving DecidableEq, Repr

/-- The fixed list of large tables of `checkMissingWhereClause`
(`queryProtection.ts` lines 147-152). -/
def largeTables : List String :=
  ["master_ticketing_groups", "tickets_orders", "tickets_orders_items", "master_events"]

/-- Function `checkQueryComplexity` (`queryProtection.ts` lines 90-140): accumulate
advisory warnings from textual heuristics; always returns `allowed: true`.
`sql` is the trimmed, lower-cased statement. -/
def checkQueryComplexity (sql : String) : QueryProtectionResult :=
  let joinCount := countWord "join" sql
  let w1 := if joinCount > 5 then
      ["Query has " ++ toString joinCount ++ " JOINs, which may be slow"] else []
  let subqueryCount := countNestedSelect sql
  let w2 := if subqueryCount > 3 then
      ["Query has " ++ toString subqueryCount ++ " nested subqueries, which may be slow"] else []
  let unionCount := countWord "union" sql
  let w3 := if unionCount > 2 then
      ["Query has " ++ toString unionCount ++ " UNIONs, which may be slow"] else []
  let w4 := if strContains sql "distinct" && !strContains sql "limit" then
      ["DISTINCT without LIMIT may return many rows"] else []
  let w5 := if strContains sql "order by" && !strContains sql "limit" then
      ["ORDER BY without LIMIT may be slow on large tables"] else []
  let w6 := if strContains sql "group by" && !strContains sql "having"
                && !strContains sql "limit" then
      ["GROUP BY without HAVING or LIMIT may return many rows"] else []
  let w7 := if strLikeWildcard sql then
      ["LIKE patterns starting with % cannot use indexes"] else []
  let w8 := if regexWhereFunc sql then
      ["Functions on WHERE columns may prevent index usage"] else []
  let warnings := w1 ++ w2 ++ w3 ++ w4 ++ w5 ++ w6 ++ w7 ++ w8
  { allowed := true
    reason := none
    warnings := if warnings.isEmpty then none else some warnings }

/-- The fixed rejection reason of `checkMissingWhereClause` (line 170). -/
def missingWhereReason : String :=
  "Query targets large table without WHERE clause and no LIMIT. This could return millions of rows."

/-- The advisory warning of `checkMissingWhereClause` (line 164). -/
def missingWhereWarning : String :=
  "Query on large table without WHERE clause - ensure LIMIT is reasonable"

/-- Function `checkMissingWhereClause` (`queryProtection.ts` lines 145-175):
`largeTables.some(table => sql.includes(table) && !sql.includes('where'))`,
then allow-with-warning when a `limit` substring is present, reject otherwise. -/
def checkMissingWhereClause (sql : String) : QueryProtectionResult :=
  let targetsLargeTable :=
    largeTables.any (fun table => strContains sql table && !strContains sql "where")
  if targetsLargeTable then
    if strContains sql "limit" then
      { allowed := true, reason := none, warnings := some [missingWhereWarning] }
    else
      { allowed := false, reason := some missingWhereReason, warnings := none }
  else
    { allowed := true, reason := none, warnings := none }

/-- The rejection reason of `checkCartesianProduct` (line 195). -/
def cartesianReason : String :=
  "Query appears to create a cartesian product (multiple tables without JOIN conditions)"

/-- Function `checkCartesianProduct` (`queryProtection.ts` lines 180-201): count the
`from` and `join` keyword occurrences; with more than one in total, reject
unless a `join ... on` pattern or a `where ... = ... =` pattern occurs.
The source repeats the `totalTables > 1` test inside the inner `if`; it is
redundant and kept here as a conjunction. -/
def checkCartesianProduct (sql : String) : QueryProtectionResult :=
  let fromCount := countWord "from" sql
  let joinCount := countWord "join" sql
  let totalTables := fromCount + joinCount
  if totalTables > 1 then
    let hasJoinCondition := regexJoinOn sql || regexWhereEqEq sql
    if !hasJoinCondition && totalTables > 1 then
      { allowed := false, reason := some cartesianReason, warnings := none }
    else
      { allowed := true, reason := none, warnings := none }
  else
    { allowed := true, reason := none, warnings := none }

/-- The rejection reason of the length check (`queryProtection.ts` line 45). -/
def lengthReason (cfg : QueryProtectionConfig) (sql : String) : String :=
  "Query exceeds maximum length of " ++ toString cfg.maxQueryLength
    ++ " characters (" ++ toString sql.length ++ " chars)"

/-- Function `validateQuery` (`queryProtection.ts` lines 37-85): length check on the
raw statement, then — on the trimmed, lower-cased text — the complexity
heuristics (only when enabled; they never reject), the missing-WHERE check
and the cartesian-product check, each returning its own result unchanged on
rejection; warnings of passing checks are concatenated in evaluation order
and attached only when non-empty.  When the complexity check is disabled the
neutral result stands for the skipped branch (no warnings, `allowed: true`),
matching the source's control flow. -/
def validateQuery (cfg : QueryProtectionConfig) (sql : String) : QueryProtectionResult :=
  let normalizedSql := jsToLower (jsTrim sql)
  if sql.length > cfg.maxQueryLength then
    { allowed := false, reason := some (lengthReason cfg sql), warnings := none }
  else
    let complexityCheck :=
      if cfg.enableComplexityCheck then checkQueryComplexity normalizedSql
      else { allowed := true, reason := none, warnings := none }
    if complexityCheck.allowed = false then complexityCheck
    else
      let warnings1 := complexityCheck.warnings.getD []
      let missingWhereCheck := checkMissingWhereClause normalizedSql
      if missingWhereCheck.allowed = false then missingWhereCheck
      else
        let warnings2 := warnings1 ++ missingWhereCheck.warnings.getD []
        let cartesianCheck := checkCartesianProduct normalizedSql
        if cartesianCheck.allowed = false then cartesianCheck
        else
          let warnings3 := warnings2 ++ cartesianCheck.warnings.getD []
          { allowed := true
            reason := none
            warnings := if warnings3.isEmpty then none else some warnings3 }

/-- Function `getStatementTimeoutSql` (`queryProtection.ts` lines 206-212). -/
def getStatementTimeoutSql (cfg : QueryProtectionConfig) : String :=
  if !cfg.enableStatementTimeout then ""
  else "SET LOCAL statement_timeout = " ++ toString cfg.maxQueryTimeMs ++ ";"

/-- Function `limitResults` (`queryProtection.ts` lines 217-224).  The source computes
`maxRows || this.config.maxResultRows`; JavaScript `||` also falls back on a
passed `0`, which the zero test reproduces. -/
def limitResults {α : Type} (cfg : QueryProtectionConfig) (results : List α)
    (maxRows : Option Nat) : List α :=
  let limit := match maxRows with
    | some m => if m = 0 then cfg.maxResultRows else m
    | none => cfg.maxResultRows
  if results.length > limit then results.take limit else results

/-!
JavaScript objects have reference semantics: `return this.config` would hand
the caller an alias of the service's configuration, while the source's
`return { ...this.config }` (`queryProtection.ts` lines 229-231) allocates a
fresh object with the same fields.  To state the aliasing claim the store of
configuration objects is modelled explicitly: a heap of configuration
records addressed by allocation index, with the service holding the address
of its private `config` object.
-/

/-- Read a configuration cell; out-of-range reads yield the default, and the
theorems below restrict attention to valid addresses. -/
def readCells : List QueryProtectionConfig → Nat → QueryProtectionConfig
  | [], _ => defaultConfig
  | c :: _, 0 => c
  | _ :: cs, n + 1 => readCells cs n

/-- Overwrite a configuration cell in place (a JavaScript field mutation of
the object at that address). -/
def writeCells : List QueryProtectionConfig → Nat → QueryProtectionConfig →
    List QueryProtectionConfig
  | [], _, _ => []
  | _ :: cs, 0, c => c :: cs
  | d :: cs, n + 1, c => d :: writeCells cs n c

/-- A heap of configuration objects; an address is an index into `cells`. -/
structure Heap where
  cells : List QueryProtectionConfig
deriving DecidableEq

def Heap.read (h : Heap) (a : Nat) : QueryProtectionConfig :=
  readCells h.cells a

def Heap.write (h : Heap) (a : Nat) (c : QueryProtectionConfig) : Heap :=
  ⟨writeCells h.cells a c⟩

/-- Allocate a fresh object holding `c`; returns the new heap and the fresh
address (the previous heap size). -/
def Heap.alloc (h : Heap) (c : QueryProtectionConfig) : Heap × Nat :=
  (⟨h.cells ++ [c]⟩, h.cells.length)

/-- The shallow field-by-field copy performed by the spread `{ ...this.config }`. -/
def copyConfig (c : QueryProtectionConfig) : QueryProtectionConfig :=
  { maxQueryTimeMs := c.maxQueryTimeMs
    maxResultRows := c.maxResultRows
    maxQueryLength := c.maxQueryLength
    enableComplexityCheck := c.enableComplexityCheck
    enableStatementTimeout := c.enableStatementTimeout }

/-- Function `getConfig` (`queryProtection.ts` lines 229-231): spread the service's
configuration object (held at address `svc`) into a freshly allocated object
and return its address. -/
def getConfig (h : Heap) (svc : Nat) : Heap × Nat :=
  h.alloc (copyConfig (h.read svc))

/-!
The guarded execution path.  The repository's sources under `src/` contain
the validator, `limitResults` and `getStatementTimeoutSql`, but the wrapper
that drives a statement through validation, the timeout race and truncation
is present only in the repository's documentation (`QUERY_PROTECTION.md`:
"protection is automatically applied to all queries via the `query()`
function", "Uses `Promise.race()` to cancel queries that exceed the
timeout") and its test scripts; the `database.ts` under `src/` is the bare
driver.  The executor is therefore modelled from the spec (§4.2), with the
driver call abstracted as an oracle describing when and how the underlying
promise settles.
-/

/-- The error taxonomy of the guarded executor (spec §7). -/
inductive GuardError
  | validationRejected (reason : String)
  | executionTimeout (ms : Nat)
  | driverError (msg : String)
deriving DecidableEq, Repr

/-- Structure `GuardedOutcome` (spec §3): the successful result of a guarded execution. -/
structure GuardedOutcome (ρ : Type) where
  rows : List ρ
  rowCount : Nat
  warnings : List String
  truncated : Bool
  executionTimeMs : Nat
deriving Repr

/-- How the underlying driver promise behaves for one statement: it settles
(with rows or a database error) after a given number of milliseconds, or it
never settles. -/
inductive DriverBehavior (ρ : Type)
  | settles (afterMs : Nat) (result : Except String (List ρ))
  | neverSettles

/-- The truncation warning emitted by `limitResults` (line 220) when a result
set is cut down. -/
def truncationWarning (fromRows toRows : Nat) : String :=
  "Result set truncated from " ++ toString fromRows ++ " to " ++ toString toRows ++ " rows"

/-- Modelled from the spec: `guardedExecute` (spec §4.2) is missing from the
sources under `src/` (only its documentation, test scripts and the bare
driver are present).  Following the spec's algorithm: call the embedded
`validateQuery` and fail with `ValidationRejected(reason)` before any driver
interaction on a rejected statement; otherwise race the driver call against a
`maxQueryTimeMs` timer, failing with `ExecutionTimeout(maxQueryTimeMs)` when
the driver has not settled before the timer fires (in particular when it
never settles), surfacing a settled driver failure as `DriverError`, and on
success truncating the rows through the source-embedded `limitResults`,
setting `rowCount` to the new length and `truncated` accordingly.  The
returned flag records whether the driver was invoked; the best-effort session
timeout (spec §4.2 step 3) and slow-query logging (step 5) have no effect on
the returned outcome and are not modelled. -/
def guardedExecute {ρ : Type} (cfg : QueryProtectionConfig) (sql : String)
    (driver : DriverBehavior ρ) : Except GuardError (GuardedOutcome ρ) × Bool :=
  let v := validateQuery cfg sql
  if v.allowed = false then
    (Except.error (GuardError.validationRejected (v.reason.getD "")), false)
  else
    match driver with
    | DriverBehavior.neverSettles =>
        (Except.error (GuardError.executionTimeout cfg.maxQueryTimeMs), true)
    | DriverBehavior.settles afterMs result =>
        if cfg.maxQueryTimeMs ≤ afterMs then
          (Except.error (GuardError.executionTimeout cfg.maxQueryTimeMs), true)
        else
          match result with
          | Except.error msg => (Except.error (GuardError.driverError msg), true)
          | Except.ok rows =>
              let truncated := decide (rows.length > cfg.maxResultRows)
              let finalRows := limitResults cfg rows none
              let warns := v.warnings.getD []
                ++ (if truncated then [truncationWarning rows.length cfg.maxResultRows] else [])
              (Except.ok
                { rows := finalRows
                  rowCount := finalRows.length
                  warnings := warns
                  truncated := truncated
                  executionTimeMs := afterMs }, true)

/-! Helper lemmas about the individual checks. -/

/-- The complexity heuristics only warn; they never reject. -/
lemma checkQueryComplexity_allowed (s : String) :
    (checkQueryComplexity s).allowed = true := rfl

/-- The three possible results of the missing-WHERE check. -/
lemma checkMissingWhereClause_shape (s : String) :
    checkMissingWhereClause s = ⟨false, some missingWhereReason, none⟩
    ∨ checkMissingWhereClause s = ⟨true, none, some [missingWhereWarning]⟩
    ∨ checkMissingWhereClause s = ⟨true, none, none⟩ := by
  simp only [checkMissingWhereClause]
  split
  · split
    · exact Or.inr (Or.inl rfl)
    · exact Or.inl rfl
  · exact Or.inr (Or.inr rfl)

/-- The two possible results of the cartesian-product check. -/
lemma checkCartesianProduct_shape (s : String) :
    checkCartesianProduct s = ⟨false, some cartesianReason, none⟩
    ∨ checkCartesianProduct s = ⟨true, none, none⟩ := by
  simp only [checkCartesianProduct]
  split
  · split
    · exact Or.inl rfl
    · exact Or.inr rfl
  · exact Or.inr rfl

/-- A passing cartesian check carries no reason and no warnings. -/
lemma checkCartesianProduct_of_allowed (s : String)
    (h : (checkCartesianProduct s).allowed = true) :
    checkCartesianProduct s = ⟨true, none, none⟩ := by
  rcases checkCartesianProduct_shape s with hs | hs
  · rw [hs] at h; cases h
  · exact hs

/-- The complexity stage of `validateQuery` never rejects, whether or not the
toggle is on. -/
lemma complexityStage_allowed (b : Bool) (s : String) :
    (if b = true then checkQueryComplexity s
     else ⟨true, none, none⟩).allowed = true := by
  split
  · exact checkQueryComplexity_allowed s
  · rfl

/-- Every result of `validateQuery` is a length rejection, a missing-WHERE
rejection, a cartesian rejection, or an allowed result. -/
lemma validateQuery_shape (cfg : QueryProtectionConfig) (sql : String) :
    validateQuery cfg sql = ⟨false, some (lengthReason cfg sql), none⟩
    ∨ validateQuery cfg sql = ⟨false, some missingWhereReason, none⟩
    ∨ validateQuery cfg sql = ⟨false, some cartesianReason, none⟩
    ∨ (validateQuery cfg sql).allowed = true := by
  by_cases hlen : sql.length > cfg.maxQueryLength
  · exact Or.inl (by simp [validateQuery, hlen])
  · rcases checkMissingWhereClause_shape (jsToLower (jsTrim sql)) with hm | hm | hm <;>
      rcases checkCartesianProduct_shape (jsToLower (jsTrim sql)) with hk | hk <;>
      cases hcc : cfg.enableComplexityCheck <;>
      simp [validateQuery, hlen, hm, hk, hcc, checkQueryComplexity_allowed]

/-- The branch structure of the `getD`-wrapped warnings assembly: the
optional warnings field collapses back to the underlying list. -/
lemma getD_ite_isEmpty (l : List String) :
    (if l.isEmpty = true then (none : Option (List String)) else some l).getD [] = l := by
  cases l <;> rfl

/-- Shared core of the allowed path: when the length, missing-WHERE and
cartesian checks all pass, `validateQuery` allows the statement. -/
lemma validateQuery_allowed_of_checks (cfg : QueryProtectionConfig) (sql : String)
    (hlen : ¬ sql.length > cfg.maxQueryLength)
    (hmw : (checkMissingWhereClause (jsToLower (jsTrim sql))).allowed = true)
    (hcart : (checkCartesianProduct (jsToLower (jsTrim sql))).allowed = true) :
    (validateQuery cfg sql).allowed = true := by
  cases hcc : cfg.enableComplexityCheck <;>
    simp [validateQuery, hlen, hcc, checkQueryComplexity_allowed, hmw, hcart]

/-- On the allowed path with the complexity check enabled, the returned
warnings are the concatenation of the three checks' warnings. -/
lemma validateQuery_allowed_warnings (cfg : QueryProtectionConfig) (sql : String)
    (hlen : ¬ sql.length > cfg.maxQueryLength)
    (hcc : cfg.enableComplexityCheck = true)
    (hmw : (checkMissingWhereClause (jsToLower (jsTrim sql))).allowed = true)
    (hcart : (checkCartesianProduct (jsToLower (jsTrim sql))).allowed = true) :
    (validateQuery cfg sql).warnings.getD []
      = (checkQueryComplexity (jsToLower (jsTrim sql))).warnings.getD []
        ++ (checkMissingWhereClause (jsToLower (jsTrim sql))).warnings.getD []
        ++ (checkCartesianProduct (jsToLower (jsTrim sql))).warnings.getD [] := by
  have h1 : validateQuery cfg sql
      = ⟨true, none,
         if ((checkQueryComplexity (jsToLower (jsTrim sql))).warnings.getD []
              ++ (checkMissingWhereClause (jsToLower (jsTrim sql))).warnings.getD []
              ++ (checkCartesianProduct (jsToLower (jsTrim sql))).warnings.getD []).isEmpty = true
         then none
         else some ((checkQueryComplexity (jsToLower (jsTrim sql))).warnings.getD []
              ++ (checkMissingWhereClause (jsToLower (jsTrim sql))).warnings.getD []
              ++ (checkCartesianProduct (jsToLower (jsTrim sql))).warnings.getD [])⟩ := by
    simp [validateQuery, hlen, hcc, checkQueryComplexity_allowed, hmw, hcart]
  rw [h1]
  simp only [getD_ite_isEmpty]

/-! The claims. -/

/-- C6: every SQL string longer than `config.maxQueryLength` is rejected
regardless of content — also when `enableComplexityCheck` is off since the
configuration is arbitrary — with the reason citing both the configured
limit and the actual length. -/
theorem overlong_query_rejected (cfg : QueryProtectionConfig) (sql : String)
    (h : sql.length > cfg.maxQueryLength) :
    validateQuery cfg sql = ⟨false, some (lengthReason cfg sql), none⟩ := by
  simp only [validateQuery]
  rw [if_pos h]

/-- C6 witness: a 23-character statement against a 10-character limit, with
the complexity check disabled. -/
theorem overlong_query_rejected_witness :
    ("SELECT * FROM a WHERE b" : String).length
        > (⟨30000, 10000, 10, false, true⟩ : QueryProtectionConfig).maxQueryLength
    ∧ validateQuery ⟨30000, 10000, 10, false, true⟩ "SELECT * FROM a WHERE b"
        = ⟨false, some (lengthReason ⟨30000, 10000, 10, false, true⟩ "SELECT * FROM a WHERE b"),
           none⟩ :=
  ⟨by decide, overlong_query_rejected _ _ (by decide)⟩

/-- C9: whenever `validateQuery` rejects, the result carries a reason and no
warnings at all — warnings accumulated by earlier checks are discarded. -/
theorem rejection_has_reason_and_no_warnings (cfg : QueryProtectionConfig) (sql : String)
    (h : (validateQuery cfg sql).allowed = false) :
    (validateQuery cfg sql).reason.isSome = true
    ∧ (validateQuery cfg sql).warnings = none := by
  rcases validateQuery_shape cfg sql with hs | hs | hs | hs
  · rw [hs]; exact ⟨rfl, rfl⟩
  · rw [hs]; exact ⟨rfl, rfl⟩
  · rw [hs]; exact ⟨rfl, rfl⟩
  · rw [hs] at h; cases h

/-- C9 witness: a rejected statement (protected table, no WHERE, no LIMIT)
carries a reason and no warnings. -/
theorem rejection_has_reason_and_no_warnings_witness :
    (validateQuery defaultConfig "SELECT * FROM master_events").allowed = false
    ∧ (validateQuery defaultConfig "SELECT * FROM master_events").reason.isSome = true
    ∧ (validateQuery defaultConfig "SELECT * FROM master_events").warnings = none :=
  ⟨by decide,
   (rejection_has_reason_and_no_warnings _ _ (by decide)).1,
   (rejection_has_reason_and_no_warnings _ _ (by decide)).2⟩

/-- C7: complexity heuristics alone never cause rejection — any statement
within the length limit on which the missing-WHERE check and the
cartesian-product check both pass is allowed, whatever warnings accumulate
and whichever value `enableComplexityCheck` takes. -/
theorem heuristic_warnings_never_reject (cfg : QueryProtectionConfig) (sql : String)
    (hlen : ¬ sql.length > cfg.maxQueryLength)
    (hmw : (checkMissingWhereClause (jsToLower (jsTrim sql))).allowed = true)
    (hcart : (checkCartesianProduct (jsToLower (jsTrim sql))).allowed = true) :
    (validateQuery cfg sql).allowed = true :=
  validateQuery_allowed_of_checks cfg sql hlen hmw hcart

/-- C7 witness: a statement that accumulates a complexity warning (DISTINCT
without LIMIT) is still allowed. -/
theorem heuristic_warnings_never_reject_witness :
    ¬ ("select distinct a from t" : String).length > defaultConfig.maxQueryLength
    ∧ (checkMissingWhereClause (jsToLower (jsTrim "select distinct a from t"))).allowed = true
    ∧ (checkCartesianProduct (jsToLower (jsTrim "select distinct a from t"))).allowed = true
    ∧ (validateQuery defaultConfig "select distinct a from t").allowed = true :=
  ⟨by decide, by decide, by decide,
   heuristic_warnings_never_reject _ _ (by decide) (by decide) (by decide)⟩

/-- C4: contrary to the claim (and to the repository's own test script and
`QUERY_PROTECTION.md`, which both expect a cartesian-product rejection here),
the code allows `SELECT * FROM a, b`: `checkCartesianProduct` counts
occurrences of the `from` and `join` keywords, so a comma-separated table
list contributes a single `from` and `totalTables = 1`, and the check never
fires. -/
theorem comma_join_cartesian_not_rejected :
    validateQuery defaultConfig "SELECT * FROM a, b" = ⟨true, none, none⟩
    ∧ (validateQuery defaultConfig
        "SELECT * FROM master_events me, master_ticketing_groups mtg\n      LIMIT 100").allowed
        = true := by
  constructor
  · decide
  · decide

/-- C5 (amended): for a statement within the length limit whose normalized
text contains a protected-table identifier and no `where` substring, the
validator rejects with the fixed unbounded-row-volume reason (which does not
name the table) when no `limit` substring is present, and — provided the
cartesian-product check also passes — allows with the LIMIT caution warning
when one is. -/
theorem protected_table_missing_where_behavior (cfg : QueryProtectionConfig) (sql : String)
    (htab : largeTables.any (fun table =>
        strContains (jsToLower (jsTrim sql)) table
          && !strContains (jsToLower (jsTrim sql)) "where") = true)
    (hlen : ¬ sql.length > cfg.maxQueryLength) :
    (strContains (jsToLower (jsTrim sql)) "limit" = false →
        validateQuery cfg sql = ⟨false, some missingWhereReason, none⟩)
    ∧ (strContains (jsToLower (jsTrim sql)) "limit" = true →
        (checkCartesianProduct (jsToLower (jsTrim sql))).allowed = true →
        (validateQuery cfg sql).allowed = true
          ∧ missingWhereWarning ∈ (validateQuery cfg sql).warnings.getD []) := by
  constructor
  · intro hlim
    have hm : checkMissingWhereClause (jsToLower (jsTrim sql))
        = ⟨false, some missingWhereReason, none⟩ := by
      simp [checkMissingWhereClause, htab, hlim]
    cases hcc : cfg.enableComplexityCheck <;>
      simp [validateQuery, hlen, hcc, checkQueryComplexity_allowed, hm]
  · intro hlim hcart
    have hm : checkMissingWhereClause (jsToLower (jsTrim sql))
        = ⟨true, none, some [missingWhereWarning]⟩ := by
      simp [checkMissingWhereClause, htab, hlim]
    refine ⟨validateQuery_allowed_of_checks cfg sql hlen (by rw [hm]) hcart, ?_⟩
    cases hcc : cfg.enableComplexityCheck
    · -- complexity check off: the caution is the sole missing-WHERE warning
      have h1 : validateQuery cfg sql
          = ⟨true, none, some ((checkMissingWhereClause (jsToLower (jsTrim sql))).warnings.getD []
              ++ (checkCartesianProduct (jsToLower (jsTrim sql))).warnings.getD [])⟩ := by
        simp [validateQuery, hlen, hcc, hm, checkCartesianProduct_of_allowed _ hcart]
      rw [h1]
      simp [hm]
    · rw [validateQuery_allowed_warnings cfg sql hlen hcc (by rw [hm]) hcart, hm]
      simp

/-- C5 witness: the claim's two concrete statements — the bare protected-table
scan is rejected with the fixed reason, the `LIMIT 100` variant is allowed
with the caution warning. -/
theorem protected_table_missing_where_behavior_witness :
    validateQuery defaultConfig "SELECT * FROM master_ticketing_groups"
        = ⟨false, some missingWhereReason, none⟩
    ∧ (validateQuery defaultConfig "SELECT * FROM master_ticketing_groups LIMIT 100").allowed
        = true
    ∧ missingWhereWarning
        ∈ (validateQuery defaultConfig "SELECT * FROM master_ticketing_groups LIMIT 100").warnings.getD [] :=
  ⟨(protected_table_missing_where_behavior defaultConfig
      "SELECT * FROM master_ticketing_groups" (by decide) (by decide)).1 (by decide),
   ((protected_table_missing_where_behavior defaultConfig
      "SELECT * FROM master_ticketing_groups LIMIT 100" (by decide) (by decide)).2
      (by decide) (by decide)).1,
   ((protected_table_missing_where_behavior defaultConfig
      "SELECT * FROM master_ticketing_groups LIMIT 100" (by decide) (by decide)).2
      (by decide) (by decide)).2⟩

/-- C5 counterexample: the claim says the rejection reason names the
offending table; the code's reason is a fixed string that does not contain
`master_ticketing_groups`. -/
theorem missing_where_reason_lacks_table_name :
    (validateQuery defaultConfig "SELECT * FROM master_ticketing_groups").reason
        = some missingWhereReason
    ∧ strContains missingWhereReason "master_ticketing_groups" = false := by
  constructor
  · decide
  · decide

/-- Whenever the nested-subquery count exceeds 3, the complexity check's
warning list contains the corresponding warning. -/
lemma nested_warning_mem (s : String) (h : countNestedSelect s > 3) :
    ("Query has " ++ toString (countNestedSelect s) ++ " nested subqueries, which may be slow")
      ∈ (checkQueryComplexity s).warnings.getD [] := by
  simp only [checkQueryComplexity, h, if_true, getD_ite_isEmpty]
  simp [h]

/-- C8 (amended): on a statement within the length limit, with
`enableComplexityCheck` on, whose nested `select ... select` count exceeds 3,
and which is ultimately allowed (the missing-WHERE and cartesian checks
pass), the result's warnings include the nested-subqueries warning reporting
that count. -/
theorem nested_subquery_warning_when_allowed (cfg : QueryProtectionConfig) (sql : String)
    (hlen : ¬ sql.length > cfg.maxQueryLength)
    (hcc : cfg.enableComplexityCheck = true)
    (hsub : countNestedSelect (jsToLower (jsTrim sql)) > 3)
    (hmw : (checkMissingWhereClause (jsToLower (jsTrim sql))).allowed = true)
    (hcart : (checkCartesianProduct (jsToLower (jsTrim sql))).allowed = true) :
    ("Query has " ++ toString (countNestedSelect (jsToLower (jsTrim sql)))
        ++ " nested subqueries, which may be slow")
      ∈ (validateQuery cfg sql).warnings.getD [] := by
  rw [validateQuery_allowed_warnings cfg sql hlen hcc hmw hcart]
  exact List.mem_append.mpr (Or.inl (List.mem_append.mpr (Or.inl (nested_warning_mem _ hsub))))

/-- C8 witness: four lines of two `select`s each give a nested-subquery count
of 4; the statement passes the other checks and the warning is reported. -/
theorem nested_subquery_warning_when_allowed_witness :
    ¬ ("select select\nselect select\nselect select\nselect select" : String).length
        > defaultConfig.maxQueryLength
    ∧ defaultConfig.enableComplexityCheck = true
    ∧ countNestedSelect (jsToLower (jsTrim "select select\nselect select\nselect select\nselect select")) > 3
    ∧ ("Query has "
        ++ toString (countNestedSelect (jsToLower (jsTrim "select select\nselect select\nselect select\nselect select")))
        ++ " nested subqueries, which may be slow")
      ∈ (validateQuery defaultConfig
          "select select\nselect select\nselect select\nselect select").warnings.getD [] :=
  ⟨by decide, by decide, by decide,
   nested_subquery_warning_when_allowed defaultConfig
     "select select\nselect select\nselect select\nselect select"
     (by decide) (by decide) (by decide) (by decide) (by decide)⟩

/-- C8 counterexample: a statement whose nested `select ... select` count is
4 (> 3) but which the missing-WHERE check rejects; the returned result
carries no warnings at all, so the nested-subqueries warning is not
reported, contradicting the claim as stated. -/
theorem nested_subquery_warning_discarded_on_reject :
    countNestedSelect (jsToLower (jsTrim
        "select select from master_events\nselect select\nselect select\nselect select")) > 3
    ∧ defaultConfig.enableComplexityCheck = true
    ∧ ¬ ("select select from master_events\nselect select\nselect select\nselect select" : String).length
        > defaultConfig.maxQueryLength
    ∧ (validateQuery defaultConfig
        "select select from master_events\nselect select\nselect select\nselect select").allowed = false
    ∧ (validateQuery defaultConfig
        "select select from master_events\nselect select\nselect select\nselect select").warnings
        = none := by
  refine ⟨by decide, by decide, by decide, by decide, by decide⟩

/-- C1: a statement the validator rejects never reaches the driver — the
guarded execution fails with `ValidationRejected(reason)` and the
driver-invoked flag is `false`, whatever the driver would have done. -/
theorem rejected_statement_never_reaches_driver {ρ : Type} (cfg : QueryProtectionConfig)
    (sql : String) (driver : DriverBehavior ρ)
    (h : (validateQuery cfg sql).allowed = false) :
    guardedExecute cfg sql driver
      = (Except.error (GuardError.validationRejected ((validateQuery cfg sql).reason.getD "")),
         false) := by
  simp [guardedExecute, h]

/-- C1 witness: the rejected protected-table statement with a driver that
would settle immediately; the driver is not invoked. -/
theorem rejected_statement_never_reaches_driver_witness :
    (validateQuery defaultConfig "SELECT * FROM master_ticketing_groups").allowed = false
    ∧ guardedExecute defaultConfig "SELECT * FROM master_ticketing_groups"
        (DriverBehavior.settles 5 (Except.ok [(1 : Nat)]))
      = (Except.error (GuardError.validationRejected
          ((validateQuery defaultConfig "SELECT * FROM master_ticketing_groups").reason.getD "")),
         false) :=
  ⟨by decide, rejected_statement_never_reaches_driver _ _ _ (by decide)⟩

/-- C2: on an allowed statement, when the driver has not settled before
`maxQueryTimeMs` — in particular when it never settles — the guarded
execution fails with `ExecutionTimeout(maxQueryTimeMs)`, independent of how
the driver would eventually settle. -/
theorem unsettled_driver_times_out {ρ : Type} (cfg : QueryProtectionConfig) (sql : String)
    (h : (validateQuery cfg sql).allowed = true) :
    guardedExecute cfg sql (DriverBehavior.neverSettles : DriverBehavior ρ)
      = (Except.error (GuardError.executionTimeout cfg.maxQueryTimeMs), true)
    ∧ ∀ (t : Nat) (res : Except String (List ρ)), cfg.maxQueryTimeMs ≤ t →
        guardedExecute cfg sql (DriverBehavior.settles t res)
          = (Except.error (GuardError.executionTimeout cfg.maxQueryTimeMs), true) := by
  constructor
  · simp [guardedExecute, h]
  · intro t res ht
    simp [guardedExecute, h, ht]

/-- C2 witness: `maxQueryTimeMs = 30` with a never-settling driver rejects
with `ExecutionTimeout 30`; a driver settling only at 60 ms (after the
deadline) times out the same way, showing independence from late settling. -/
theorem unsettled_driver_times_out_witness :
    (validateQuery ⟨30, 10000, 50000, true, true⟩ "SELECT 1").allowed = true
    ∧ guardedExecute ⟨30, 10000, 50000, true, true⟩ "SELECT 1"
        (DriverBehavior.neverSettles : DriverBehavior Nat)
      = (Except.error (GuardError.executionTimeout 30), true)
    ∧ (30 : Nat) ≤ 60
    ∧ guardedExecute ⟨30, 10000, 50000, true, true⟩ "SELECT 1"
        (DriverBehavior.settles 60 (Except.ok [(7 : Nat)]))
      = (Except.error (GuardError.executionTimeout 30), true) :=
  ⟨by decide,
   (unsettled_driver_times_out _ _ (by decide)).1,
   by decide,
   (unsettled_driver_times_out _ _ (by decide)).2 60 _ (by decide)⟩

/-- C3: on an allowed statement whose driver settles in time with more rows
than `maxResultRows`, the guarded outcome holds exactly the first
`maxResultRows` rows, its `rowCount` is the length of the returned row
sequence, that length equals `maxResultRows`, and `truncated` is `true`. -/
theorem oversized_result_truncated {ρ : Type} (cfg : QueryProtectionConfig) (sql : String)
    (t : Nat) (rows : List ρ)
    (hok : (validateQuery cfg sql).allowed = true)
    (ht : t < cfg.maxQueryTimeMs)
    (hrows : rows.length > cfg.maxResultRows) :
    (guardedExecute cfg sql (DriverBehavior.settles t (Except.ok rows))).1
      = Except.ok
          { rows := rows.take cfg.maxResultRows
            rowCount := (rows.take cfg.maxResultRows).length
            warnings := (validateQuery cfg sql).warnings.getD []
              ++ [truncationWarning rows.length cfg.maxResultRows]
            truncated := true
            executionTimeMs := t }
    ∧ (rows.take cfg.maxResultRows).length = cfg.maxResultRows := by
  have hlim : limitResults cfg rows none = rows.take cfg.maxResultRows := by
    simp [limitResults, hrows]
  constructor
  · simp [guardedExecute, hok, Nat.not_le.mpr ht, hrows, hlim]
  · rw [List.length_take]
    exact Nat.min_eq_left (Nat.le_of_lt hrows)

/-- C3 witness: a driver returning 50000 synthetic rows under the default
`maxResultRows = 10000` yields exactly 10000 rows, `rowCount = 10000` and
`truncated = true`. -/
theorem oversized_result_truncated_witness :
    (validateQuery defaultConfig "SELECT 1").allowed = true
    ∧ 0 < defaultConfig.maxQueryTimeMs
    ∧ (List.replicate 50000 (0 : Nat)).length > defaultConfig.maxResultRows
    ∧ ((guardedExecute defaultConfig "SELECT 1"
          (DriverBehavior.settles 0 (Except.ok (List.replicate 50000 (0 : Nat))))).1
        = Except.ok
            { rows := (List.replicate 50000 (0 : Nat)).take defaultConfig.maxResultRows
              rowCount := ((List.replicate 50000 (0 : Nat)).take defaultConfig.maxResultRows).length
              warnings := (validateQuery defaultConfig "SELECT 1").warnings.getD []
                ++ [truncationWarning (List.replicate 50000 (0 : Nat)).length
                      defaultConfig.maxResultRows]
              truncated := true
              executionTimeMs := 0 }
        ∧ ((List.replicate 50000 (0 : Nat)).take defaultConfig.maxResultRows).length
            = defaultConfig.maxResultRows) :=
  ⟨by decide, by decide,
   by rw [List.length_replicate]; decide,
   oversized_result_truncated defaultConfig "SELECT 1" 0 (List.replicate 50000 (0 : Nat))
     (by decide) (by decide) (by rw [List.length_replicate]; decide)⟩

/-! Heap lemmas for the `getConfig` aliasing claim. -/

lemma readCells_append (cs : List QueryProtectionConfig) (c : QueryProtectionConfig)
    (n : Nat) (h : n < cs.length) :
    readCells (cs ++ [c]) n = readCells cs n := by
  induction cs generalizing n with
  | nil => exact absurd h (Nat.not_lt_zero n)
  | cons d cs ih =>
    cases n with
    | zero => rfl
    | succ m => exact ih m (Nat.lt_of_succ_lt_succ h)

lemma readCells_writeCells_ne (cs : List QueryProtectionConfig) (m n : Nat)
    (c : QueryProtectionConfig) (h : n ≠ m) :
    readCells (writeCells cs m c) n = readCells cs n := by
  induction cs generalizing m n with
  | nil => rfl
  | cons d cs ih =>
    cases m with
    | zero =>
      cases n with
      | zero => exact absurd rfl h
      | succ k => rfl
    | succ p =>
      cases n with
      | zero => rfl
      | succ k => exact ih p k (fun he => h (congrArg Nat.succ he))

lemma readCells_append_self (cs : List QueryProtectionConfig) (c : QueryProtectionConfig) :
    readCells (cs ++ [c]) cs.length = c := by
  induction cs with
  | nil => rfl
  | cons d cs ih => exact ih

/-- C10: `getConfig` hands back a fresh address (never the service's own),
whose contents equal the stored configuration; mutating the returned object
leaves the stored configuration unchanged, and `validateQuery`,
`limitResults`, `getStatementTimeoutSql` and a further `getConfig` read off
the service behave exactly as if no mutation had occurred. -/
theorem getConfig_fresh_copy_isolated (h : Heap) (svc : Nat)
    (hsvc : svc < h.cells.length) (muta : QueryProtectionConfig) (sql : String)
    (rows : List Nat) (maxRows : Option Nat) :
    (getConfig h svc).2 ≠ svc
    ∧ (getConfig h svc).1.read (getConfig h svc).2 = h.read svc
    ∧ ((getConfig h svc).1.write (getConfig h svc).2 muta).read svc = h.read svc
    ∧ validateQuery (((getConfig h svc).1.write (getConfig h svc).2 muta).read svc) sql
        = validateQuery (h.read svc) sql
    ∧ limitResults (((getConfig h svc).1.write (getConfig h svc).2 muta).read svc) rows maxRows
        = limitResults (h.read svc) rows maxRows
    ∧ getStatementTimeoutSql (((getConfig h svc).1.write (getConfig h svc).2 muta).read svc)
        = getStatementTimeoutSql (h.read svc)
    ∧ (getConfig ((getConfig h svc).1.write (getConfig h svc).2 muta) svc).1.read
        (getConfig ((getConfig h svc).1.write (getConfig h svc).2 muta) svc).2
        = h.read svc := by
  have hkey : ((getConfig h svc).1.write (getConfig h svc).2 muta).read svc = h.read svc := by
    show readCells (writeCells (h.cells ++ [copyConfig (h.read svc)]) h.cells.length muta) svc
        = readCells h.cells svc
    rw [readCells_writeCells_ne _ _ _ _ (Nat.ne_of_lt hsvc)]
    exact readCells_append _ _ _ hsvc
  refine ⟨Nat.ne_of_gt hsvc, ?_, hkey, by rw [hkey], by rw [hkey], by rw [hkey], ?_⟩
  · show readCells (h.cells ++ [copyConfig (h.read svc)]) h.cells.length = h.read svc
    rw [readCells_append_self]
    rfl
  · show readCells
        ((((getConfig h svc).1.write (getConfig h svc).2 muta).cells)
          ++ [copyConfig (((getConfig h svc).1.write (getConfig h svc).2 muta).read svc)])
        (((getConfig h svc).1.write (getConfig h svc).2 muta).cells).length
        = h.read svc
    rw [readCells_append_self]
    exact hkey

/-- C10 witness: a one-cell heap holding the default configuration; mutating
the copy returned by `getConfig` leaves the service's configuration intact. -/
theorem getConfig_fresh_copy_isolated_witness :
    0 < (Heap.mk [defaultConfig]).cells.length
    ∧ (getConfig (Heap.mk [defaultConfig]) 0).2 ≠ 0
    ∧ ((getConfig (Heap.mk [defaultConfig]) 0).1.write
          (getConfig (Heap.mk [defaultConfig]) 0).2 ⟨1, 2, 3, false, false⟩).read 0
        = (Heap.mk [defaultConfig]).read 0 :=
  ⟨by decide,
   (getConfig_fresh_copy_isolated (Heap.mk [defaultConfig]) 0 (by decide)
      ⟨1, 2, 3, false, false⟩ "SELECT 1" [1, 2, 3] none).1,
   (getConfig_fresh_copy_isolated (Heap.mk [defaultConfig]) 0 (by decide)
      ⟨1, 2, 3, false, false⟩ "SELECT 1" [1, 2, 3] none).2.2.1⟩

end QueryGuard
